import Mathlib

/-!
Verification development for the AI-Callcenter call-conversation core.

Shallow embedding of the repository's conversation state machine:
`backend/services/llm_service.py` (intent classification, date parsing,
tool execution, booking), `backend/api/routes/webhooks.py` (the Twilio
turn handler and status callback), `backend/workers/tasks.py`
(call initiation, the Celery turn path, finalization) and
`backend/migrate_add_active_call_constraint.py` (the storage-layer
uniqueness index).  Python datetimes are modelled as explicit
year/month/day/hour/minute/second records, `None`-able columns as
`Option`, and exceptions as `Except`/structured error results.
-/

namespace Callcenter

/-- Substring test on character lists: Python's `needle in haystack`. -/
def prefixMatch : List Char → List Char → Bool
  | [], _ => true
  | _ :: _, [] => false
  | a :: as, b :: bs => a == b && prefixMatch as bs

/-- `containsSub needle hay` is true iff `needle` occurs contiguously in `hay`. -/
def containsSub (needle : List Char) : List Char → Bool
  | [] => prefixMatch needle []
  | c :: rest => prefixMatch needle (c :: rest) || containsSub needle rest

/-- Python's `sub in s` substring operator on strings. -/
def strContains (s sub : String) : Bool :=
  containsSub sub.data s.data

/-- Python's `str.lower()` (ASCII case folding, as used by the repository). -/
def pyLower (s : String) : String :=
  String.mk (s.data.map Char.toLower)

/-- Whitespace characters `str.strip()` removes. -/
def isStripSpace (c : Char) : Bool :=
  c == ' ' || c == '\t' || c == '\n' || c == '\r' || c == '\x0b' || c == '\x0c'

/-- Python's `str.strip()` with no argument: trim surrounding whitespace. -/
def pyStrip (s : String) : String :=
  String.mk (((s.data.dropWhile isStripSpace).reverse.dropWhile isStripSpace).reverse)

/-- Python's `filter(str.isdigit, s)`: the digit characters of a string, in order. -/
def digitChars (s : String) : List Char :=
  s.data.filter Char.isDigit

/-- Numeric value of a digit list, as `int(...)` reads it. -/
def natOfDigits (cs : List Char) : Nat :=
  cs.foldl (fun n c => 10 * n + (c.toNat - 48)) 0

/-- A Python `datetime` value, to second precision (the repository never
uses sub-second precision in the logic under verification). -/
structure PyDateTime where
  year : Nat
  month : Nat
  day : Nat
  hour : Nat
  minute : Nat
  second : Nat
  deriving DecidableEq, Repr

/-- The calendar date part of a `datetime` (`datetime.date()`). -/
structure PyDate where
  year : Nat
  month : Nat
  day : Nat
  deriving DecidableEq, Repr

/-- `datetime.date()`. -/
def PyDateTime.dateOf (d : PyDateTime) : PyDate :=
  ⟨d.year, d.month, d.day⟩

def isLeapYear (y : Nat) : Bool :=
  (y % 4 == 0 && y % 100 != 0) || y % 400 == 0

def daysInMonth (y m : Nat) : Nat :=
  if m == 2 then (if isLeapYear y then 29 else 28)
  else if m == 4 || m == 6 || m == 9 || m == 11 then 30
  else 31

/-- Value of a decimal digit character, or `none`. -/
def digitVal (c : Char) : Option Nat :=
  if c.isDigit then some (c.toNat - 48) else none

/-- Read two decimal digits. -/
def parse2 : List Char → Option (Nat × List Char)
  | a :: b :: rest => do
    let x ← digitVal a
    let y ← digitVal b
    pure (10 * x + y, rest)
  | _ => none

/-- Read four decimal digits. -/
def parse4 : List Char → Option (Nat × List Char)
  | a :: b :: c :: d :: rest => do
    let x ← digitVal a
    let y ← digitVal b
    let z ← digitVal c
    let w ← digitVal d
    pure (1000 * x + 100 * y + 10 * z + w, rest)
  | _ => none

/-- Read the `HH:MM[:SS]` time part. -/
def parseTimePart (cs : List Char) : Option (Nat × Nat × Nat) := do
  let (h, rest) ← parse2 cs
  match rest with
  | ':' :: rest2 => do
    let (m, rest3) ← parse2 rest2
    match rest3 with
    | [] => pure (h, m, 0)
    | ':' :: rest4 => do
      let (s, rest5) ← parse2 rest4
      match rest5 with
      | [] => pure (h, m, s)
      | _ => none
    | _ => none
  | _ => none

/-- Model of Python's `datetime.fromisoformat` on the strict
`YYYY-MM-DD[*HH:MM[:SS]]` format (the only shapes the repository feeds it);
returns `none` where Python raises `ValueError`. -/
def fromisoformat (s : String) : Option PyDateTime := do
  let (y, rest) ← parse4 s.data
  match rest with
  | '-' :: rest1 => do
    let (mo, rest2) ← parse2 rest1
    match rest2 with
    | '-' :: rest3 => do
      let (d, rest4) ← parse2 rest3
      let time ← (match rest4 with
        | [] => some (0, 0, 0)
        | sep :: rest5 =>
          if sep == 'T' || sep == ' ' then parseTimePart rest5 else none)
      let (h, mi, se) := time
      if 1 ≤ mo && mo ≤ 12 && 1 ≤ d && d ≤ daysInMonth y mo
          && h ≤ 23 && mi ≤ 59 && se ≤ 59 then
        pure ⟨y, mo, d, h, mi, se⟩
      else none
    | _ => none
  | _ => none

def pad2 (n : Nat) : String :=
  if n < 10 then "0" ++ toString n else toString n

def pad4 (n : Nat) : String :=
  if n < 10 then "000" ++ toString n
  else if n < 100 then "00" ++ toString n
  else if n < 1000 then "0" ++ toString n
  else toString n

/-- Python's `datetime.isoformat()` (second precision). -/
def PyDateTime.isoformat (d : PyDateTime) : String :=
  pad4 d.year ++ "-" ++ pad2 d.month ++ "-" ++ pad2 d.day ++ "T" ++
    pad2 d.hour ++ ":" ++ pad2 d.minute ++ ":" ++ pad2 d.second

/-! ## Data model (`backend/models/`) -/

/-- `CallOutcome` enum (`backend/models/call.py`). -/
inductive CallOutcome
  | interested
  | not_interested
  | no_answer
  | busy
  deriving DecidableEq, Repr

/-- `LeadStatus` enum (`backend/models/lead.py`). -/
inductive LeadStatus
  | pending
  | queued
  | calling
  | contacted
  | meeting_scheduled
  | not_interested
  | no_answer
  | failed
  deriving DecidableEq, Repr

/-- `SpeakerRole` enum (`backend/models/conversation_history.py`). -/
inductive SpeakerRole
  | ai
  | user
  | system
  deriving DecidableEq, Repr

/-- `MeetingStatus` enum (`backend/models/meeting.py`). -/
inductive MeetingStatus
  | scheduled
  | confirmed
  | cancelled
  | completed
  | no_show
  deriving DecidableEq, Repr

/-- A `leads` row (the columns the core logic touches). -/
structure LeadRow where
  id : Nat
  name : String
  email : String
  phone : String
  language : Option String
  status : LeadStatus
  deriving DecidableEq, Repr

/-- A `calls` row: `outcome`, `ended_at`, `transcript` and `summary` are
nullable (`migrate_outcome_nullable.py` makes `outcome` nullable). -/
structure CallRow where
  id : Nat
  lead_id : Nat
  twilio_call_sid : Option String
  outcome : Option CallOutcome
  ended_at : Option Nat
  transcript : Option String
  summary : Option String
  duration : Option Nat
  language : Option String
  deriving DecidableEq, Repr

/-- A `conversation_history` row. -/
structure TurnRow where
  call_id : Nat
  role : SpeakerRole
  message : String
  deriving DecidableEq, Repr

/-- A `meetings` row. -/
structure MeetingRow where
  lead_id : Nat
  call_id : Nat
  scheduled_time : PyDateTime
  guest_email : String
  calendar_event_id : Option String
  duration : Nat
  meeting_link : Option String
  status : MeetingStatus
  deriving DecidableEq, Repr

/-! ## Intent classifier (`LLMService._classify_intent`) -/

/-- `ConversationIntent` (`backend/services/llm_service.py`). -/
inductive ConversationIntent
  | INTERESTED
  | NOT_INTERESTED
  | NEEDS_INFO
  | SCHEDULE_MEETING
  | MEETING_BOOKED
  | END_CALL
  deriving DecidableEq, Repr

/-- One executed tool call as recorded in `tool_calls_data`: the tool name,
its arguments snapshot, and whether `result.get("success")` is truthy. -/
structure ToolCallRecord where
  tool : String
  resultSuccess : Bool
  resultEventId : Option String
  resultZoomLink : Option String
  argsDatetime : Option String
  argsGuestEmail : Option String
  argsDuration : Option Nat
  deriving DecidableEq, Repr

/-- `goodbye_phrases` from `_classify_intent`. -/
def goodbye_phrases : List String :=
  ["goodbye", "bye", "talk to you then", "see you then",
   "looking forward to our meeting", "have a great day",
   "thank you for your time", "speak to you soon", "catch you later"]

/-- `not_interested` keyword list from `_classify_intent`. -/
def not_interested_keywords : List String :=
  ["not interested", "no thanks", "not now", "busy", "don\x27t call", "remove me"]

/-- `interested` keyword list from `_classify_intent`. -/
def interested_keywords : List String :=
  ["yes", "sure", "okay", "interested", "tell me more"]

/-- `meeting_booked`: some `book_meeting` tool call this turn had a truthy
`success` in its result. -/
def meetingBookedFlag (tool_calls : List ToolCallRecord) : Bool :=
  tool_calls.any fun tc => tc.tool == "book_meeting" && tc.resultSuccess

/-- `ai_saying_goodbye`: the lowercased AI reply contains a goodbye phrase. -/
def aiSayingGoodbye (ai_response : String) : Bool :=
  goodbye_phrases.any fun p => strContains (pyLower ai_response) p

/-- The extra booking-confirmation marker check in `_classify_intent`
(`"confirmed"` or `"calendar invite sent"` in the lowercased AI reply). -/
def confirmMarker (ai_response : String) : Bool :=
  ["confirmed", "calendar invite sent"].any fun w =>
    strContains (pyLower ai_response) w

/-- The user-decline check in `_classify_intent`. -/
def userDeclines (user_message : String) : Bool :=
  not_interested_keywords.any fun k => strContains (pyLower user_message) k

/-- The `check_calendar_availability`-was-used check in `_classify_intent`. -/
def usedCheckAvailability (tool_calls : List ToolCallRecord) : Bool :=
  tool_calls.any fun tc => tc.tool == "check_calendar_availability"

/-- The affirmative-keyword check in `_classify_intent`. -/
def userAffirms (user_message : String) : Bool :=
  interested_keywords.any fun k => strContains (pyLower user_message) k

/-- `LLMService._classify_intent`: the first-match rule cascade classifying a
turn from the AI reply, the user utterance, and this turn's tool calls. -/
def classify_intent (ai_response user_message : String)
    (tool_calls : List ToolCallRecord) : ConversationIntent :=
  if meetingBookedFlag tool_calls && aiSayingGoodbye ai_response then
    .MEETING_BOOKED
  else if meetingBookedFlag tool_calls && !aiSayingGoodbye ai_response then
    .SCHEDULE_MEETING
  else if confirmMarker ai_response && aiSayingGoodbye ai_response then
    .MEETING_BOOKED
  else if aiSayingGoodbye ai_response then
    .END_CALL
  else if userDeclines user_message then
    .NOT_INTERESTED
  else if usedCheckAvailability tool_calls then
    .SCHEDULE_MEETING
  else if userAffirms user_message then
    .INTERESTED
  else if strContains user_message "?" then
    .NEEDS_INFO
  else
    .NEEDS_INFO

/-- The 8-rule first-match cascade exactly as §4.3 of the spec words it
(for the refinement comparison with `classify_intent`): 1. booking succeeded
and goodbye phrase → MEETING_BOOKED; 2. booking succeeded → SCHEDULE_MEETING;
3. goodbye phrase → END_CALL; 4. decline keyword → NOT_INTERESTED;
5. a `checkAvailability` call occurred → SCHEDULE_MEETING; 6. affirmative
keyword → INTERESTED; 7. `"?"` in the utterance → NEEDS_INFO; 8. NEEDS_INFO.
The keyword sets are the code's fixed sets, which the spec cites by example. -/
def classify_intent_spec (ai_response user_message : String)
    (tool_calls : List ToolCallRecord) : ConversationIntent :=
  if meetingBookedFlag tool_calls && aiSayingGoodbye ai_response then
    .MEETING_BOOKED
  else if meetingBookedFlag tool_calls then
    .SCHEDULE_MEETING
  else if aiSayingGoodbye ai_response then
    .END_CALL
  else if userDeclines user_message then
    .NOT_INTERESTED
  else if usedCheckAvailability tool_calls then
    .SCHEDULE_MEETING
  else if userAffirms user_message then
    .INTERESTED
  else if strContains user_message "?" then
    .NEEDS_INFO
  else
    .NEEDS_INFO

/-! ## Date-expression parsing (`LLMService._parse_date_string`) -/

/-- Result of date parsing relative to `datetime.utcnow()`: either
`now + n days`, or an absolute datetime from an ISO parse. -/
inductive ParsedDate
  | relDays (n : Nat)
  | absDate (d : PyDateTime)
  deriving DecidableEq, Repr

/-- `LLMService._parse_date_string`: total date-expression parser. The
`int(...)` call on a digitless string raises `ValueError`, which the code
catches by returning `now + 1 day`; ISO parsing is attempted on the
original (unstripped, unlowered) string, failure defaulting likewise. -/
def parse_date_string (date_str : String) : ParsedDate :=
  let ds := pyLower (pyStrip date_str)
  if ds == "tomorrow" then .relDays 1
  else if ds == "next week" then .relDays 7
  else if strContains ds "next" then .relDays 7
  else if strContains ds "in" && strContains ds "day" then
    match digitChars ds with
    | [] => .relDays 1
    | cs => .relDays (natOfDigits cs)
  else
    match fromisoformat date_str with
    | some d => .absDate d
    | none => .relDays 1

/-- Read per the spec's words: a string "matching `in <N> days`", i.e. the
trimmed lowercased string is exactly `in`, a space, digits, a space, `days`. -/
def inNDaysExact (s : String) : Option Nat :=
  match s.data with
  | 'i' :: 'n' :: ' ' :: rest =>
    let ds := rest.takeWhile Char.isDigit
    let tail := rest.dropWhile Char.isDigit
    if ds ≠ [] && tail = (" days").data then some (natOfDigits ds) else none
  | _ => none

/-- The §4.2 date-parsing precedence exactly as the spec words it: literal
`tomorrow` → now+1; `next week` or any string containing `next` → now+7;
a string matching `in <N> days` → now+N; otherwise attempt an ISO-8601
parse; otherwise default to now+1. -/
def parse_date_spec (date_str : String) : ParsedDate :=
  let ds := pyLower (pyStrip date_str)
  if ds == "tomorrow" then .relDays 1
  else if ds == "next week" || strContains ds "next" then .relDays 7
  else
    match inNDaysExact ds with
    | some n => .relDays n
    | none =>
      match fromisoformat date_str with
      | some d => .absDate d
      | none => .relDays 1

/-- The amended reading of the third precedence rule: the code's test is a
substring test — any string containing both `in` and `day` takes this
branch, `N` being the concatenation of every digit character of the string,
with no digits at all defaulting to now+1 day. -/
def parse_date_spec_amended (date_str : String) : ParsedDate :=
  let ds := pyLower (pyStrip date_str)
  if ds == "tomorrow" then .relDays 1
  else if ds == "next week" || strContains ds "next" then .relDays 7
  else if strContains ds "in" && strContains ds "day" then
    match digitChars ds with
    | [] => .relDays 1
    | cs => .relDays (natOfDigits cs)
  else
    match fromisoformat date_str with
    | some d => .absDate d
    | none => .relDays 1

/-! ## Calendar slots (`CalendarService.get_available_slots`) -/

def weekdayNames : List String :=
  ["Sunday", "Monday", "Tuesday", "Wednesday", "Thursday", "Friday", "Saturday"]

def monthNames : List String :=
  ["January", "February", "March", "April", "May", "June", "July",
   "August", "September", "October", "November", "December"]

/-- Day of week, 0 = Sunday (Sakamoto's method). -/
def dayOfWeek (y m d : Nat) : Nat :=
  let t : List Nat := [0, 3, 2, 5, 0, 3, 5, 1, 4, 6, 2, 4]
  let y := if m < 3 then y - 1 else y
  (y + y / 4 - y / 100 + y / 400 + (t.getD (m - 1) 0) + d) % 7

/-- Python's `strftime("%A, %B %d at %I:%M %p")`, the human-readable slot
label built by `get_available_slots`. -/
def strftimeDisplay (dt : PyDateTime) : String :=
  let h12 := if dt.hour % 12 == 0 then 12 else dt.hour % 12
  (weekdayNames.getD (dayOfWeek dt.year dt.month dt.day) "") ++ ", " ++
    (monthNames.getD (dt.month - 1) "") ++ " " ++ pad2 dt.day ++ " at " ++
    pad2 h12 ++ ":" ++ pad2 dt.minute ++ " " ++
    (if dt.hour < 12 then "AM" else "PM")

/-- A slot dict as `CalendarService.get_available_slots` builds it: `start`
and `slot_end` hold `isoformat()` **strings** (not datetime objects), and
`display` the strftime label. -/
structure CalSlot where
  start : String
  slot_end : String
  display : String
  deriving DecidableEq, Repr

/-- The slot dict constructed for one free candidate slot
(`calendar_service.py`, the `available_slots.append({...})` literal). -/
def available_slot_entry (current_time slot_end_time : PyDateTime) : CalSlot :=
  { start := current_time.isoformat
    slot_end := slot_end_time.isoformat
    display := strftimeDisplay current_time }

/-! ## Tool executor (`LLMService._check_calendar_availability`,
`LLMService._book_meeting`, `LLMService._execute_tool`) -/

/-- A Zoom meeting as `ZoomService.create_meeting` returns it. -/
structure ZoomMeeting where
  join_url : String
  meeting_id : String
  password : String
  deriving DecidableEq, Repr

/-- Outcome of the best-effort Zoom step inside `_book_meeting`: the service
may be absent, raise (caught, booking continues), return `None`, or return
a meeting. -/
inductive ZoomOutcome
  | noService
  | raised
  | returnedNone
  | created (m : ZoomMeeting)
  deriving DecidableEq, Repr

/-- External collaborator responses available to one turn's tool executions:
whether a calendar service was injected, what `get_available_slots` returns,
the Zoom step's outcome, and what `calendar_service.create_meeting` returns
(`none` models a failed event creation). -/
structure ToolEnv where
  calendarConfigured : Bool
  availSlots : List CalSlot
  zoom : ZoomOutcome
  createResult : Option String
  deriving Repr

/-- Arguments of a `check_calendar_availability` tool call
(`args.get` defaults applied at use sites). -/
structure CheckArgs where
  preferred_date : Option String
  duration_minutes : Option Nat
  num_slots : Option Nat
  deriving DecidableEq, Repr

/-- Arguments of a `book_meeting` tool call (`datetime`, `guest_email` and
`guest_name` are accessed with `[...]`, the rest via `.get` with defaults). -/
structure BookArgs where
  datetimeStr : String
  guest_email : String
  guest_name : String
  duration_minutes : Option Nat
  meeting_title : Option String
  description : Option String
  deriving DecidableEq, Repr

/-- Result dict of `_check_calendar_availability`. -/
structure CheckResult where
  success : Bool
  available_slots : List String
  error : Option String
  deriving DecidableEq, Repr

/-- Result dict of `_book_meeting`. -/
structure BookResult where
  success : Bool
  event_id : Option String
  zoom_link : Option String
  video_link : Option String
  error : Option String
  deriving DecidableEq, Repr

/-- `_check_calendar_availability`: parses the preferred date, queries the
calendar, stores the selected slot dicts in `recently_offered_slots`
(returned as the new service state) and returns their display strings. -/
def check_calendar_availability (env : ToolEnv) (st : List CalSlot)
    (args : CheckArgs) : List CalSlot × CheckResult :=
  if !env.calendarConfigured then
    (st, { success := false, available_slots := [],
           error := some "Calendar service is not configured. Please contact support." })
  else
    let num_slots := args.num_slots.getD 3
    let _start_date := parse_date_string (args.preferred_date.getD "tomorrow")
    let selected_slots := env.availSlots.take num_slots
    (selected_slots,
     { success := true
       available_slots := selected_slots.map (fun s => s.display)
       error := none })

/-- `offered_dt.date()` where `offered_dt` is the stored slot `start`: the
stored starts are `isoformat()` strings (see `available_slot_entry`), and a
Python `str` has no `date` attribute, so this raises `AttributeError`. -/
def pyStrDate (s : String) : Except String PyDate :=
  .error ("AttributeError: \x27str\x27 object has no attribute \x27date\x27 (" ++ s ++ ")")

/-- The slot-validation loop of `_book_meeting`: walk the offered slots
looking for one whose date, hour and minute equal the requested datetime.
The first attribute access on a stored (string) start raises. -/
def findMatchingSlot (meeting_datetime : PyDateTime) :
    List CalSlot → Except String (Option CalSlot)
  | [] => .ok none
  | slot :: rest => do
    let d ← pyStrDate slot.start
    if meeting_datetime.dateOf = d then .ok (some slot)
    else findMatchingSlot meeting_datetime rest

/-- The date/hour/minute slot comparison spelled at lines 467-469 of
`llm_service.py` (what the loop is written to test, used for the spec-side
statement of the validation). -/
def slotComparison (meeting_datetime offered_dt : PyDateTime) : Bool :=
  meeting_datetime.dateOf == offered_dt.dateOf &&
    meeting_datetime.hour == offered_dt.hour &&
    meeting_datetime.minute == offered_dt.minute

/-- The `if self.recently_offered_slots:` validation step of `_book_meeting`:
skipped entirely when no slots were offered; otherwise the loop runs (and
its `.error` propagates to the outer `except`). -/
def slotValidation (meeting_datetime : PyDateTime)
    (recently_offered_slots : List CalSlot) : Except String Unit :=
  match recently_offered_slots with
  | [] => .ok ()
  | slots =>
    match findMatchingSlot meeting_datetime slots with
    | .error e => .error e
    | .ok _ => .ok ()

/-- A `BookResult` carrying only an error, as the failure returns build it. -/
def bookFailure (e : String) : BookResult :=
  { success := false, event_id := none, zoom_link := none, video_link := none,
    error := some e }

/-- `_book_meeting`: validates the ISO datetime; when offered slots exist,
runs the validation loop (whose outcome `.error` is swallowed by the
method's outer `except Exception`, producing a failed booking); otherwise
proceeds: best-effort Zoom, then the calendar event, success iff the
calendar event was created. -/
def book_meeting (env : ToolEnv) (recently_offered_slots : List CalSlot)
    (args : BookArgs) : BookResult :=
  if !env.calendarConfigured then
    bookFailure "Calendar service is not configured. Please contact support."
  else
    match fromisoformat args.datetimeStr with
    | none => bookFailure "Invalid datetime format. Use ISO format (YYYY-MM-DDTHH:MM:SS)"
    | some meeting_datetime =>
      match slotValidation meeting_datetime recently_offered_slots with
      | .error e => bookFailure e
      | .ok _ =>
        let zoom_link : Option String :=
          match env.zoom with
          | .created m => some m.join_url
          | _ => none
        match env.createResult with
        | none => bookFailure "Failed to create calendar event"
        | some event_id =>
          { success := true
            event_id := some event_id
            zoom_link := zoom_link
            video_link := zoom_link
            error := none }

/-- A tool call requested by the language model, dispatched by name in
`_execute_tool`. -/
inductive ToolRequest
  | check (args : CheckArgs)
  | book (args : BookArgs)
  | unknownTool (name : String)
  deriving DecidableEq, Repr

/-- `_execute_tool`: dispatch one requested tool, yielding the updated
`recently_offered_slots` state and the recorded `tool_calls_data` entry. -/
def execute_tool (env : ToolEnv) (st : List CalSlot) :
    ToolRequest → List CalSlot × ToolCallRecord
  | .check args =>
    let (st1, r) := check_calendar_availability env st args
    (st1, { tool := "check_calendar_availability", resultSuccess := r.success,
            resultEventId := none, resultZoomLink := none,
            argsDatetime := none, argsGuestEmail := none, argsDuration := none })
  | .book args =>
    let r := book_meeting env st args
    (st, { tool := "book_meeting", resultSuccess := r.success,
           resultEventId := r.event_id, resultZoomLink := r.zoom_link,
           argsDatetime := some args.datetimeStr,
           argsGuestEmail := some args.guest_email,
           argsDuration := args.duration_minutes })
  | .unknownTool n =>
    (st, { tool := n, resultSuccess := false, resultEventId := none,
           resultZoomLink := none, argsDatetime := none,
           argsGuestEmail := none, argsDuration := none })

/-- Whether a requested tool call is `check_calendar_availability` (the only
request kind that writes `recently_offered_slots`). -/
def isCheckRequest : ToolRequest → Bool
  | .check _ => true
  | .book _ => false
  | .unknownTool _ => false

/-- The tool-execution loop of `get_response_with_tools`: run each requested
tool in order, threading `recently_offered_slots`. -/
def run_tools (env : ToolEnv) : List ToolRequest → List CalSlot →
    List CalSlot × List ToolCallRecord
  | [], st => (st, [])
  | r :: rs, st =>
    let (st1, rec) := execute_tool env st r
    let (st2, recs) := run_tools env rs st1
    (st2, rec :: recs)

/-- `LLMService.__init__` line `self.recently_offered_slots = []`. -/
def llmServiceInitSlots : List CalSlot := []

/-- Outcome of the raw OpenAI exchange inside `get_response_with_tools`:
either some call in the `try` block raised, or the model produced tool
requests plus a final reply text. -/
inductive LLMRaw
  | fail
  | ok (toolRequests : List ToolRequest) (finalReply : String)

/-- The fixed last-resort reply of `get_response_with_tools`. -/
def fallbackReply : String :=
  "I apologize, but I\x27m having technical difficulties. Goodbye!"

/-- `LLMService.get_response_with_tools`: execute requested tools, classify
intent, and catch any exception into `(END_CALL, apology, None)`. Returns
the final `recently_offered_slots` state alongside the Python return value
`(intent, response, tool_calls or None)`. -/
def get_response_with_tools (env : ToolEnv) (st : List CalSlot)
    (user_message : String) (raw : LLMRaw) :
    List CalSlot × ConversationIntent × String × Option (List ToolCallRecord) :=
  match raw with
  | .fail => (st, .END_CALL, fallbackReply, none)
  | .ok reqs reply =>
    let (st1, recs) := run_tools env reqs st
    (st1, classify_intent reply user_message recs, reply,
     if recs.isEmpty then none else some recs)

/-! ## Database state and turn processing
(`api/routes/webhooks.py`, `workers/tasks.py`) -/

/-- The persistent store: the four tables the core mutates. -/
structure DBState where
  leads : List LeadRow
  calls : List CallRow
  history : List TurnRow
  meetings : List MeetingRow
  deriving Repr

/-- The `Meeting(...)` row the tool loop builds for a successful
`book_meeting` tool call (`datetime.fromisoformat(meeting_args["datetime"])`;
a record produced by `execute_tool` with `resultSuccess` always parses, see
`book_success_datetime_parses`). -/
def bookMeetingRow (lead_id call_id : Nat) (tc : ToolCallRecord) :
    Option MeetingRow :=
  match tc.argsDatetime with
  | none => none
  | some ds =>
    match fromisoformat ds with
    | none => none
    | some meeting_datetime =>
      some { lead_id := lead_id
             call_id := call_id
             scheduled_time := meeting_datetime
             guest_email := tc.argsGuestEmail.getD ""
             calendar_event_id := tc.resultEventId
             duration := tc.argsDuration.getD 30
             meeting_link := tc.resultZoomLink
             status := .scheduled }

/-- The `for tool_call in tool_calls` loop shared by both turn paths: each
successful `book_meeting` adds a Meeting row, sets `call.outcome` to
`INTERESTED` and `lead.status` to `MEETING_SCHEDULED`. -/
def applyToolLoop (lead_id : Nat) (call : CallRow) (lead : Option LeadRow) :
    List ToolCallRecord → CallRow × Option LeadRow × List MeetingRow
  | [] => (call, lead, [])
  | tc :: rest =>
    if tc.tool == "book_meeting" && tc.resultSuccess then
      match bookMeetingRow lead_id call.id tc with
      | some m =>
        let (c1, l1, ms) :=
          applyToolLoop lead_id { call with outcome := some .interested }
            (lead.map fun l => { l with status := .meeting_scheduled }) rest
        (c1, l1, m :: ms)
      | none => applyToolLoop lead_id call lead rest
    else applyToolLoop lead_id call lead rest

/-- The intent branch of `twilio_process_speech` (webhook path): returns the
updated call, updated lead, and the `end_call` flag. `END_CALL` and the
`INTERESTED`/`SCHEDULE_MEETING` branch only default the outcome to `BUSY`
when it is not already `interested`/`not_interested`. -/
def webhook_intent_update (call : CallRow) (lead : Option LeadRow)
    (intent : ConversationIntent) (now : Nat) :
    CallRow × Option LeadRow × Bool :=
  match intent with
  | .MEETING_BOOKED => ({ call with outcome := some .interested }, lead, true)
  | .NOT_INTERESTED =>
    ({ call with outcome := some .not_interested },
     lead.map (fun l => { l with status := .not_interested }), true)
  | .END_CALL =>
    let call1 :=
      if call.outcome == some .interested || call.outcome == some .not_interested
      then call else { call with outcome := some .busy }
    ({ call1 with ended_at := some now }, lead, true)
  | .INTERESTED =>
    (if call.outcome == some .interested || call.outcome == some .not_interested
     then call else { call with outcome := some .busy }, lead, false)
  | .SCHEDULE_MEETING =>
    (if call.outcome == some .interested || call.outcome == some .not_interested
     then call else { call with outcome := some .busy }, lead, false)
  | .NEEDS_INFO => (call, lead, false)

/-- The intent branch of `process_conversation_turn` (Celery path): unlike
the webhook path, `INTERESTED`/`SCHEDULE_MEETING` assign `BUSY`
unconditionally, and only `END_CALL` stamps `ended_at`. -/
def tasks_intent_update (call : CallRow) (lead : Option LeadRow)
    (intent : ConversationIntent) (now : Nat) : CallRow × Option LeadRow :=
  match intent with
  | .MEETING_BOOKED => ({ call with outcome := some .interested }, lead)
  | .NOT_INTERESTED =>
    ({ call with outcome := some .not_interested },
     lead.map (fun l => { l with status := .not_interested }))
  | .END_CALL =>
    let call1 :=
      if call.outcome == some .interested || call.outcome == some .not_interested
      then call else { call with outcome := some .busy }
    ({ call1 with ended_at := some now }, lead)
  | .INTERESTED => ({ call with outcome := some .busy }, lead)
  | .SCHEDULE_MEETING => ({ call with outcome := some .busy }, lead)
  | .NEEDS_INFO => (call, lead)

/-- Everything one processed turn writes and answers. -/
structure TurnOutput where
  call : CallRow
  lead : Option LeadRow
  newUserTurn : TurnRow
  newAiTurn : TurnRow
  newMeetings : List MeetingRow
  reply : String
  end_call : Bool
  deriving Repr

/-- The webhook turn body (`twilio_process_speech` after the call row is
found and the speech is non-empty): save the user turn, call the LLM — on a
**fresh** `LLMService` whose `recently_offered_slots` starts at
`llmServiceInitSlots` — run the tool loop, save the AI turn, apply the
intent branch. -/
def twilio_process_speech_turn (call : CallRow) (lead : Option LeadRow)
    (env : ToolEnv) (raw : LLMRaw) (speech_result : String) (now : Nat) :
    TurnOutput :=
  let userTurn : TurnRow := ⟨call.id, .user, speech_result⟩
  let r := get_response_with_tools env llmServiceInitSlots speech_result raw
  let intent := r.2.1
  let ai_response := r.2.2.1
  let recs := (r.2.2.2).getD []
  let tl := applyToolLoop call.lead_id call lead recs
  let aiTurn : TurnRow := ⟨call.id, .ai, ai_response⟩
  let wi := webhook_intent_update tl.1 tl.2.1 intent now
  { call := wi.1, lead := wi.2.1, newUserTurn := userTurn, newAiTurn := aiTurn,
    newMeetings := tl.2.2, reply := ai_response, end_call := wi.2.2 }

/-- The Celery turn body (`process_conversation_turn` after the call row is
found): identical to the webhook body except for its intent branch. The
Celery service instance's slot state is whatever the long-lived task object
holds (`stSlots`). -/
def process_conversation_turn_body (call : CallRow) (lead : Option LeadRow)
    (env : ToolEnv) (stSlots : List CalSlot) (raw : LLMRaw)
    (user_message : String) (now : Nat) : TurnOutput :=
  let userTurn : TurnRow := ⟨call.id, .user, user_message⟩
  let r := get_response_with_tools env stSlots user_message raw
  let intent := r.2.1
  let ai_response := r.2.2.1
  let recs := (r.2.2.2).getD []
  let tl := applyToolLoop call.lead_id call lead recs
  let aiTurn : TurnRow := ⟨call.id, .ai, ai_response⟩
  let ti := tasks_intent_update tl.1 tl.2.1 intent now
  { call := ti.1, lead := ti.2, newUserTurn := userTurn, newAiTurn := aiTurn,
    newMeetings := tl.2.2, reply := ai_response, end_call := false }

/-- Write a turn's output back into the store (replace the call and lead
rows in place, append the two turns and any meetings). -/
def applyTurnOutput (s : DBState) (o : TurnOutput) : DBState :=
  { s with
    calls := s.calls.map (fun c => if c.id == o.call.id then o.call else c)
    leads := match o.lead with
      | some l => s.leads.map (fun x => if x.id == l.id then l else x)
      | none => s.leads
    history := s.history ++ [o.newUserTurn, o.newAiTurn]
    meetings := s.meetings ++ o.newMeetings }

/-- What `twilio_process_speech` sends back to Twilio. -/
inductive SpeechResponse
  | errorTwiml
  | repeatPrompt
  | reply (text : String) (end_call : Bool)
  deriving DecidableEq, Repr

/-- The full `twilio_process_speech` handler: call-not-found and
empty-speech guards, then the turn body. -/
def twilio_process_speech (s : DBState) (call_sid : String)
    (speech_result : Option String) (env : ToolEnv) (raw : LLMRaw)
    (now : Nat) : DBState × SpeechResponse :=
  match s.calls.find? (fun c => c.twilio_call_sid == some call_sid) with
  | none => (s, .errorTwiml)
  | some call =>
    match speech_result with
    | none => (s, .repeatPrompt)
    | some sp =>
      if pyStrip sp == "" then (s, .repeatPrompt)
      else
        let lead := s.leads.find? (fun l => l.id == call.lead_id)
        let o := twilio_process_speech_turn call lead env raw sp now
        (applyTurnOutput s o, .reply o.reply o.end_call)

/-- The full `process_conversation_turn` task body at store level. -/
def process_conversation_turn (s : DBState) (call_id : Nat) (env : ToolEnv)
    (stSlots : List CalSlot) (raw : LLMRaw) (user_message : String)
    (now : Nat) : DBState × Bool :=
  match s.calls.find? (fun c => c.id == call_id) with
  | none => (s, false)
  | some call =>
    let lead := s.leads.find? (fun l => l.id == call.lead_id)
    let o := process_conversation_turn_body call lead env stSlots raw
      user_message now
    (applyTurnOutput s o, true)

/-! ## Call lifecycle (`initiate_call`, `twilio_status_callback`,
`finalize_call`) -/

/-- The structured dict `initiate_call` returns. -/
structure InitResult where
  success : Bool
  error : Option String
  active_call_id : Option Nat
  call_id : Option Nat
  call_sid : Option String
  deriving DecidableEq, Repr

/-- `workers/tasks.py initiate_call`: load the lead, reject when an active
call (null `ended_at`) exists for it, otherwise create the Call row with
`outcome=None` and dial; `dial_sid` is Twilio's reply (`none` = dial
failed, which stamps `no_answer` and `ended_at`). -/
def initiate_call (s : DBState) (lead_id : Nat) (new_call_id : Nat)
    (dial_sid : Option String) (now : Nat) : DBState × InitResult :=
  match s.leads.find? (fun l => l.id == lead_id) with
  | none =>
    (s, { success := false, error := some "Lead not found",
          active_call_id := none, call_id := none, call_sid := none })
  | some lead =>
    match s.calls.find? (fun c => c.lead_id == lead_id && c.ended_at == none) with
    | some active_call =>
      (s, { success := false, error := some "Call already in progress",
            active_call_id := some active_call.id, call_id := none,
            call_sid := none })
    | none =>
      match dial_sid with
      | some sid =>
        let call : CallRow :=
          { id := new_call_id, lead_id := lead.id, twilio_call_sid := some sid,
            outcome := none, ended_at := none, transcript := none,
            summary := none, duration := none, language := lead.language }
        ({ s with
            leads := s.leads.map (fun l =>
              if l.id == lead_id then { l with status := .calling } else l)
            calls := s.calls ++ [call] },
         { success := true, error := none, active_call_id := none,
           call_id := some new_call_id, call_sid := some sid })
      | none =>
        let call : CallRow :=
          { id := new_call_id, lead_id := lead.id, twilio_call_sid := none,
            outcome := some .no_answer, ended_at := some now,
            transcript := none, summary := none, duration := none,
            language := lead.language }
        ({ s with
            leads := s.leads.map (fun l =>
              if l.id == lead_id then { l with status := .no_answer } else l)
            calls := s.calls ++ [call] },
         { success := false, error := some "Failed to initiate call",
           active_call_id := none, call_id := none, call_sid := none })

/-- `webhooks.py twilio_status_callback`: on `completed`, stamp `ended_at`,
record duration, default a null outcome to `BUSY` ("only set default if no
outcome was ever determined"), mark the lead contacted and enqueue
finalization; on `busy`/`no-answer`/`failed`, stamp `ended_at` and map the
outcome to `NO_ANSWER`.

The row update the status callback applies on `CallStatus == "completed"`:
stamp `ended_at`, record the duration when reported, and default the
outcome to `BUSY` only when no outcome was ever determined. -/
def status_completed_row (call : CallRow) (call_duration : Option Nat)
    (now : Nat) : CallRow :=
  { call with
      ended_at := some now
      duration := match call_duration with
        | some d => some d
        | none => call.duration
      outcome := match call.outcome with
        | none => some .busy
        | some o => some o }

def twilio_status_callback (s : DBState) (call_sid : String)
    (call_status : String) (call_duration : Option Nat) (now : Nat) :
    DBState :=
  match s.calls.find? (fun c => c.twilio_call_sid == some call_sid) with
  | none => s
  | some call =>
    if call_status == "completed" then
      let call1 : CallRow := status_completed_row call call_duration now
      { s with
          calls := s.calls.map (fun c => if c.id == call.id then call1 else c)
          leads := s.leads.map (fun l =>
            if l.id == call.lead_id then { l with status := .contacted } else l) }
    else if call_status == "busy" || call_status == "no-answer"
        || call_status == "failed" then
      let call1 : CallRow :=
        { call with ended_at := some now, outcome := some .no_answer }
      { s with
          calls := s.calls.map (fun c => if c.id == call.id then call1 else c)
          leads := s.leads.map (fun l =>
            if l.id == call.lead_id then { l with status := .no_answer } else l) }
    else s

/-- The transcript line for one turn (`"AI: ..."` / `"User: ..."`; a
`system` role also prints as `"User"` since the code tests `role == AI`). -/
def transcriptLine (t : TurnRow) : String :=
  (if t.role == SpeakerRole.ai then "AI" else "User") ++ ": " ++ t.message

/-- `workers/tasks.py finalize_call`: join the conversation history into a
transcript, ask the LLM for a summary (`summaryText`; `summarize_call`
never raises — its own handler returns "Call completed."), append the
meeting suffix when a Meeting exists, and persist transcript and summary.
The call's `outcome` is not touched.

The row update `finalize_call` applies to the call: set the transcript
to the joined history and the summary to the LLM summary plus the meeting
suffix; `outcome` and `ended_at` are untouched. -/
def finalize_row (call : CallRow) (history : List TurnRow)
    (meeting : Option MeetingRow) (summaryText : String) : CallRow :=
  let transcript_text := String.intercalate "\n" (history.map transcriptLine)
  let summary := match meeting with
    | some m => summaryText ++ " | Meeting booked: " ++ m.scheduled_time.isoformat
    | none => summaryText
  { call with transcript := some transcript_text, summary := some summary }

def finalize_call (s : DBState) (call_id : Nat) (summaryText : String) :
    DBState × Bool :=
  match s.calls.find? (fun c => c.id == call_id) with
  | none => (s, false)
  | some call =>
    let history := s.history.filter (fun t => t.call_id == call_id)
    let meeting := s.meetings.find? (fun m => m.call_id == call_id)
    let call1 : CallRow := finalize_row call history meeting summaryText
    ({ s with
        calls := s.calls.map (fun c => if c.id == call.id then call1 else c) },
     true)

/-! ## Transaction structure of a turn -/

/-- One row-level mutation. -/
inductive Mutation
  | insertTurn (t : TurnRow)
  | insertMeeting (m : MeetingRow)
  | updateCall (c : CallRow)
  | updateLead (l : LeadRow)
  deriving DecidableEq, Repr

/-- The committed transactions of one webhook turn, in commit order: the
handler calls `db.commit()` right after adding the user's turn (before the
LLM call), and a second `db.commit()` after the meeting inserts, the AI
turn and the call/lead updates. -/
def webhook_turn_transactions (call : CallRow) (lead : Option LeadRow)
    (env : ToolEnv) (raw : LLMRaw) (speech_result : String) (now : Nat) :
    List (List Mutation) :=
  let o := twilio_process_speech_turn call lead env raw speech_result now
  [[.insertTurn o.newUserTurn],
   o.newMeetings.map Mutation.insertMeeting ++
     [.insertTurn o.newAiTurn, .updateCall o.call] ++
     (match o.lead with
      | some l => [Mutation.updateLead l]
      | none => [])]

/-- The committed transactions of one Celery turn (`tasks.py` commits at
line 202 after the user turn, and again at line 287). -/
def tasks_turn_transactions (call : CallRow) (lead : Option LeadRow)
    (env : ToolEnv) (stSlots : List CalSlot) (raw : LLMRaw)
    (user_message : String) (now : Nat) : List (List Mutation) :=
  let o := process_conversation_turn_body call lead env stSlots raw
    user_message now
  [[.insertTurn o.newUserTurn],
   o.newMeetings.map Mutation.insertMeeting ++
     [.insertTurn o.newAiTurn, .updateCall o.call] ++
     (match o.lead with
      | some l => [Mutation.updateLead l]
      | none => [])]

/-! ## The active-call invariant and the storage-layer index
(`migrate_add_active_call_constraint.py`) -/

/-- Number of Call rows for `lid` with a null end-timestamp. -/
def leadActiveCount (calls : List CallRow) (lid : Nat) : Nat :=
  calls.countP (fun c => c.lead_id == lid && c.ended_at == none)

/-- The invariant: every lead has at most one active call. -/
def ActiveUnique (s : DBState) : Prop :=
  ∀ lid, leadActiveCount s.calls lid ≤ 1

/-- The partial unique index `idx_active_calls_per_lead` created by
`migrate_add_active_call_constraint.py`
(`CREATE UNIQUE INDEX ... ON calls(lead_id) WHERE ended_at IS NULL`):
no two rows of the filtered table share a `lead_id`. -/
def IndexAdmits (calls : List CallRow) : Prop :=
  (calls.filter (fun c => c.ended_at == none)).Pairwise
    (fun a b => a.lead_id ≠ b.lead_id)

/-- Primary-key well-formedness of the `calls` table: `id` determines the
row. Holds of every database state the storage layer can produce. -/
def CallsPK (s : DBState) : Prop :=
  ∀ a ∈ s.calls, ∀ b ∈ s.calls, a.id = b.id → a = b

/-! ## Concrete fixtures used by witnesses and counterexamples -/

def fixEnv : ToolEnv :=
  { calendarConfigured := true, availSlots := [], zoom := .noService,
    createResult := some "evt_123" }

def fixLead : LeadRow :=
  { id := 42, name := "Dana", email := "dana@example.com",
    phone := "+972501234567", language := some "he", status := .pending }

def fixActiveCall : CallRow :=
  { id := 7, lead_id := 42, twilio_call_sid := some "CA7", outcome := none,
    ended_at := none, transcript := none, summary := none, duration := none,
    language := some "he" }

def fixEndedCallNoOutcome : CallRow :=
  { id := 9, lead_id := 42, twilio_call_sid := some "CA9", outcome := none,
    ended_at := some 100, transcript := none, summary := none,
    duration := none, language := none }

def fixInterestedCall : CallRow :=
  { id := 11, lead_id := 42, twilio_call_sid := some "CA11",
    outcome := some .interested, ended_at := none, transcript := none,
    summary := none, duration := none, language := none }

def fixStateActive : DBState :=
  { leads := [fixLead], calls := [fixActiveCall], history := [], meetings := [] }

def fixStateEmpty : DBState :=
  { leads := [fixLead], calls := [], history := [], meetings := [] }

def fixStateEnded : DBState :=
  { leads := [], calls := [fixEndedCallNoOutcome], history := [], meetings := [] }

def fixSlot : CalSlot :=
  available_slot_entry ⟨2025, 11, 5, 14, 0, 0⟩ ⟨2025, 11, 5, 14, 30, 0⟩

def fixBookArgs : BookArgs :=
  { datetimeStr := "2025-11-05T14:00:00", guest_email := "dana@example.com",
    guest_name := "Dana", duration_minutes := none, meeting_title := none,
    description := none }

/-! # Theorems -/

/-- C8, counterexample: the classifier is not exactly the 8-rule cascade of
§4.3. At the concrete input where no `book_meeting` call succeeded
(`tool_calls = []`) and the AI reply contains the goodbye phrase
"Goodbye", the claim requires `END_CALL`, but because the reply also
contains "confirmed" the code returns `MEETING_BOOKED`; the spec's own
cascade on the same input returns `END_CALL`. -/
theorem c8_counterexample :
    meetingBookedFlag [] = false ∧
    aiSayingGoodbye "Your meeting is confirmed. Goodbye!" = true ∧
    classify_intent "Your meeting is confirmed. Goodbye!" "ok" [] =
      ConversationIntent.MEETING_BOOKED ∧
    classify_intent_spec "Your meeting is confirmed. Goodbye!" "ok" [] =
      ConversationIntent.END_CALL := by
  refine ⟨rfl, ?_, ?_, ?_⟩ <;> rfl

/-- C8, amended: the classifier is a pure function implementing the spec's
cascade with one extra rule between rules 2 and 3 — when no booking
succeeded but the AI reply contains "confirmed" or "calendar invite sent"
together with a goodbye phrase, it returns `MEETING_BOOKED`; on every
other input it agrees with the 8-rule cascade, and the utterance
"Not interested, remove me" with no tool calls and a non-goodbye AI reply
classifies as `NOT_INTERESTED`. -/
theorem c8_theorem :
    (∀ ai user tcs, classify_intent ai user tcs =
      if !meetingBookedFlag tcs && confirmMarker ai && aiSayingGoodbye ai
      then ConversationIntent.MEETING_BOOKED
      else classify_intent_spec ai user tcs) ∧
    classify_intent "Okay, may I ask why?" "Not interested, remove me" [] =
      ConversationIntent.NOT_INTERESTED := by
  constructor
  · intro ai user tcs
    unfold classify_intent classify_intent_spec
    cases hb : meetingBookedFlag tcs <;> cases hg : aiSayingGoodbye ai <;>
      cases hc : confirmMarker ai <;> simp [hb, hg, hc]
  · rfl

/-- C9, counterexample: the parser does not follow the claimed precedence on
`"day 5 in"`. The string does not match `in <N> days`, so the claim sends
it to the ISO parse and then the `now+1 day` default; the code's substring
test (`"in"` and `"day"` both occur) fires instead and returns
`now+5 days`. -/
theorem c9_counterexample :
    parse_date_string "day 5 in" = ParsedDate.relDays 5 ∧
    parse_date_spec "day 5 in" = ParsedDate.relDays 1 := by
  exact ⟨by decide, by decide⟩

/-- C9, amended: the date parser is total and follows the spec's precedence
with the third rule read as the code's substring test: any string
containing both `in` and `day` yields `now + N days` where `N` is the
concatenation of every digit character (defaulting to `now + 1 day` when
there are no digits); only strings missing `in` or `day` reach the ISO
parse, and unparseable remainders default to `now + 1 day`. -/
theorem c9_theorem : ∀ s, parse_date_string s = parse_date_spec_amended s := by
  intro s
  unfold parse_date_string parse_date_spec_amended
  cases h1 : (pyLower (pyStrip s) == "tomorrow") <;>
    cases h2 : (pyLower (pyStrip s) == "next week") <;>
      cases h3 : strContains (pyLower (pyStrip s)) "next" <;>
        simp [h1, h2, h3]

/-- C2, counterexample: `finalize_call` succeeds on a zero-turn call whose
outcome is null (`fixStateEnded`), leaves the transcript non-null (the
empty string) — but the outcome is still null afterwards: `finalize` does
not default it to `busy`. -/
theorem c2_counterexample :
    (finalize_call fixStateEnded 9 "Call completed.").2 = true ∧
    ((finalize_call fixStateEnded 9 "Call completed.").1.calls.map
      CallRow.transcript) = [some ""] ∧
    ((finalize_call fixStateEnded 9 "Call completed.").1.calls.map
      CallRow.outcome) = [none] := by
  refine ⟨rfl, by decide, by decide⟩

/-- C2, amended: for every call and every conversation-turn log (including
an empty one), `finalize_row` leaves transcript and summary non-null and
the outcome exactly as it was; the defaulting of a null outcome to `busy`
is performed by the telephony status callback on `completed`
(`status_completed_row`) before finalization is enqueued, so on that path
the finalized call's outcome is non-null. -/
theorem c2_theorem :
    (∀ call history meeting summaryText,
      ((finalize_row call history meeting summaryText).transcript).isSome = true ∧
      ((finalize_row call history meeting summaryText).summary).isSome = true ∧
      (finalize_row call history meeting summaryText).outcome = call.outcome) ∧
    (∀ call dur now history meeting summaryText,
      ((finalize_row (status_completed_row call dur now) history meeting
        summaryText).outcome).isSome = true) := by
  constructor
  · intro call history meeting summaryText
    exact ⟨rfl, rfl, rfl⟩
  · intro call dur now history meeting summaryText
    show (status_completed_row call dur now).outcome.isSome = true
    unfold status_completed_row
    cases call.outcome <;> rfl

/-- C4: when a lead already has a Call row with null `ended_at`,
`initiate_call` returns `success=false` with error "Call already in
progress" and the active call's id, leaves the store untouched, and the
result does not depend on the dial outcome (no new Call row, no dial). -/
theorem c4_theorem : ∀ (s : DBState) lead_id new_call_id dial_sid now lead active,
    s.leads.find? (fun l => l.id == lead_id) = some lead →
    s.calls.find? (fun c => c.lead_id == lead_id && c.ended_at == none) =
      some active →
    initiate_call s lead_id new_call_id dial_sid now =
      (s, { success := false, error := some "Call already in progress",
            active_call_id := some active.id, call_id := none,
            call_sid := none }) := by
  intro s lid nid dial now lead active h1 h2
  unfold initiate_call
  rw [h1, h2]

/-- C4, witness: lead 42 of `fixStateActive` has active call 7; initiating
again is rejected with the structured result and an unchanged store. -/
theorem c4_witness :
    initiate_call fixStateActive 42 8 (some "CA8") 123 =
      (fixStateActive,
       { success := false, error := some "Call already in progress",
         active_call_id := some 7, call_id := none, call_sid := none }) :=
  c4_theorem fixStateActive 42 8 (some "CA8") 123 fixLead fixActiveCall
    (by decide) (by decide)

/-- C5: when the language-model exchange raises (`LLMRaw.fail`), the webhook
turn still produces the fixed apologetic reply with `end_call = true`, and
a call whose outcome was already `interested` keeps that outcome. -/
theorem c5_theorem : ∀ call lead env sp now,
    (twilio_process_speech_turn call lead env .fail sp now).reply =
      fallbackReply ∧
    (twilio_process_speech_turn call lead env .fail sp now).end_call = true ∧
    (call.outcome = some CallOutcome.interested →
      (twilio_process_speech_turn call lead env .fail sp now).call.outcome =
        some CallOutcome.interested) := by
  intro call lead env sp now
  refine ⟨rfl, rfl, ?_⟩
  intro h
  show (webhook_intent_update call lead ConversationIntent.END_CALL now).1.outcome = _
  unfold webhook_intent_update
  simp [h]

/-- C5, witness: the failing turn on `fixInterestedCall` (outcome already
`interested`) replies with the apology, ends the call, and keeps the
outcome. -/
theorem c5_witness :
    (twilio_process_speech_turn fixInterestedCall none fixEnv .fail "hello" 3).reply =
      fallbackReply ∧
    (twilio_process_speech_turn fixInterestedCall none fixEnv .fail "hello" 3).end_call =
      true ∧
    (twilio_process_speech_turn fixInterestedCall none fixEnv .fail "hello" 3).call.outcome =
      some CallOutcome.interested :=
  ⟨(c5_theorem fixInterestedCall none fixEnv "hello" 3).1,
   (c5_theorem fixInterestedCall none fixEnv "hello" 3).2.1,
   (c5_theorem fixInterestedCall none fixEnv "hello" 3).2.2 rfl⟩

/-- C6: with a valid ISO datetime and a non-empty set of recently offered
slots, `book_meeting` never reaches event creation: the stored slot starts
are isoformat strings, the comparison's `offered_dt.date()` raises
`AttributeError`, and the outer handler converts every such booking into
`success=false` with no event — instead of proceeding as claimed. -/
theorem c6_theorem : ∀ (env : ToolEnv) slots args d,
    env.calendarConfigured = true →
    fromisoformat args.datetimeStr = some d →
    slots ≠ [] →
    (book_meeting env slots args).success = false ∧
    (book_meeting env slots args).event_id = none := by
  intro env slots args d hc hp hs
  unfold book_meeting
  rw [hc, hp]
  cases slots with
  | nil => exact absurd rfl hs
  | cons a rest =>
    simp [slotValidation, findMatchingSlot, pyStrDate, bookFailure,
      Bind.bind, Except.bind]

/-- C6, witness: booking `2025-11-05T14:00:00` — the exact start of the one
offered slot — fails with no event, even though the requested time matches
the offered slot on date, hour and minute. -/
theorem c6_witness :
    (book_meeting fixEnv [fixSlot] fixBookArgs).success = false ∧
    (book_meeting fixEnv [fixSlot] fixBookArgs).event_id = none :=
  c6_theorem fixEnv [fixSlot] fixBookArgs ⟨2025, 11, 5, 14, 0, 0⟩ rfl
    (by decide) (by decide)

/-- C7, counterexample: a concrete webhook turn commits two transactions,
not one — the user's turn is committed alone, before the rest of the
turn's mutations. -/
theorem c7_counterexample :
    (webhook_turn_transactions fixActiveCall none fixEnv
      (.ok [] "Have a great day") "hello" 5).length = 2 ∧
    webhook_turn_transactions fixActiveCall none fixEnv
        (.ok [] "Have a great day") "hello" 5 =
      [[.insertTurn ⟨7, .user, "hello"⟩],
       [.insertTurn ⟨7, .ai, "Have a great day"⟩,
        .updateCall
          { fixActiveCall with outcome := some .busy, ended_at := some 5 }]] := by
  exact ⟨rfl, by decide⟩

/-- C7, amended: every turn, on both paths, commits exactly two
transactions; the first contains only the user's ConversationTurn (and is
independent of the language-model outcome, being committed before that
call), while the outcome update, AI turn and optional Meeting are committed
together in the second — so a failure partway through a turn persists the
user's turn and nothing else. -/
theorem c7_theorem : ∀ call lead env raw sp stSlots um now,
    (webhook_turn_transactions call lead env raw sp now).length = 2 ∧
    (webhook_turn_transactions call lead env raw sp now).head? =
      some [Mutation.insertTurn ⟨call.id, SpeakerRole.user, sp⟩] ∧
    (tasks_turn_transactions call lead env stSlots raw um now).length = 2 ∧
    (tasks_turn_transactions call lead env stSlots raw um now).head? =
      some [Mutation.insertTurn ⟨call.id, SpeakerRole.user, um⟩] := by
  intro call lead env raw sp stSlots um now
  exact ⟨rfl, rfl, rfl, rfl⟩

/-- The tool loop can only strengthen an outcome to `interested`: a call
whose outcome is already `interested` or `not_interested` still has one of
those outcomes afterwards. -/
theorem applyToolLoop_outcome_mono : ∀ (recs : List ToolCallRecord) lid call lead,
    (call.outcome = some CallOutcome.interested ∨
     call.outcome = some CallOutcome.not_interested) →
    ((applyToolLoop lid call lead recs).1.outcome = some CallOutcome.interested ∨
     (applyToolLoop lid call lead recs).1.outcome =
       some CallOutcome.not_interested) := by
  intro recs
  induction recs with
  | nil => intro lid call lead h; exact h
  | cons tc rest ih =>
    intro lid call lead h
    unfold applyToolLoop
    by_cases hb : (tc.tool == "book_meeting" && tc.resultSuccess) = true
    · simp only [hb, if_true]
      cases hm : bookMeetingRow lid call.id tc with
      | some m =>
        simp only
        exact ih lid _ _ (Or.inl rfl)
      | none =>
        simp only
        exact ih lid call lead h
    · simp only [Bool.not_eq_true] at hb
      simp only [hb, Bool.false_eq_true, if_false]
      exact ih lid call lead h

/-- The webhook intent branch never writes `busy` over an outcome that is
already `interested` or `not_interested`, whatever the intent. -/
theorem webhook_intent_update_no_busy : ∀ call lead intent now,
    (call.outcome = some CallOutcome.interested ∨
     call.outcome = some CallOutcome.not_interested) →
    (webhook_intent_update call lead intent now).1.outcome ≠
      some CallOutcome.busy := by
  intro call lead intent now h
  have hcond : (call.outcome == some CallOutcome.interested ||
      call.outcome == some CallOutcome.not_interested) = true := by
    rcases h with h | h <;> simp [h]
  cases intent <;> unfold webhook_intent_update <;> simp [hcond] <;>
    rcases h with h | h <;> simp [h]

/-- C3, counterexample: on the Celery turn path, a call whose outcome is
already `interested` is downgraded to `busy` by a turn whose classified
intent is `INTERESTED` (the user says "yes" and the reply is ordinary) —
`process_conversation_turn` assigns `BUSY` unconditionally there. -/
theorem c3_counterexample :
    fixInterestedCall.outcome = some CallOutcome.interested ∧
    (process_conversation_turn_body fixInterestedCall none fixEnv []
      (.ok [] "Great, what time works?") "yes" 9).call.outcome =
        some CallOutcome.busy := by
  exact ⟨rfl, by decide⟩

/-- C3, amended: outcome monotonicity holds on the webhook turn path — a
call with outcome `interested` or `not_interested` never leaves a turn
with outcome `busy`, whatever the model or tools did; on the Celery task
path it holds only for `NEEDS_INFO` and `END_CALL` turns, while
`INTERESTED`/`SCHEDULE_MEETING` turns overwrite the outcome with `busy`. -/
theorem c3_theorem :
    (∀ call lead env raw sp now,
      (call.outcome = some CallOutcome.interested ∨
       call.outcome = some CallOutcome.not_interested) →
      (twilio_process_speech_turn call lead env raw sp now).call.outcome ≠
        some CallOutcome.busy) ∧
    (∀ call lead now intent,
      (call.outcome = some CallOutcome.interested ∨
       call.outcome = some CallOutcome.not_interested) →
      (intent = ConversationIntent.NEEDS_INFO ∨
       intent = ConversationIntent.END_CALL) →
      (tasks_intent_update call lead intent now).1.outcome = call.outcome) := by
  constructor
  · intro call lead env raw sp now h
    show (webhook_intent_update
      (applyToolLoop call.lead_id call lead _).1 _ _ now).1.outcome ≠ _
    apply webhook_intent_update_no_busy
    exact applyToolLoop_outcome_mono _ call.lead_id call lead h
  · intro call lead now intent h hi
    have hcond : (call.outcome == some CallOutcome.interested ||
        call.outcome == some CallOutcome.not_interested) = true := by
      rcases h with h | h <;> simp [h]
    rcases hi with hi | hi <;> subst hi <;> unfold tasks_intent_update <;>
      simp [hcond]

/-- C3, witness: a webhook turn on `fixInterestedCall` does not end with
outcome `busy`, and a `NEEDS_INFO` Celery intent branch leaves the
outcome untouched. -/
theorem c3_witness :
    (twilio_process_speech_turn fixInterestedCall none fixEnv
      (.ok [] "ok") "yes" 2).call.outcome ≠ some CallOutcome.busy ∧
    (tasks_intent_update fixInterestedCall none ConversationIntent.NEEDS_INFO
      2).1.outcome = fixInterestedCall.outcome :=
  ⟨c3_theorem.1 fixInterestedCall none fixEnv (.ok [] "ok") "yes" 2 (Or.inl rfl),
   c3_theorem.2 fixInterestedCall none 2 ConversationIntent.NEEDS_INFO
     (Or.inl rfl) (Or.inl rfl)⟩

/-- A non-`check_calendar_availability` tool execution leaves
`recently_offered_slots` unchanged. -/
theorem execute_tool_state_stable : ∀ (env : ToolEnv) st r,
    isCheckRequest r = false → (execute_tool env st r).1 = st := by
  intro env st r h
  cases r with
  | check args => simp [isCheckRequest] at h
  | book args => rfl
  | unknownTool n => rfl

/-- Running a sequence of non-check tool requests leaves
`recently_offered_slots` unchanged. -/
theorem run_tools_state_stable : ∀ (env : ToolEnv) (rs : List ToolRequest) st,
    (rs.all fun r => !isCheckRequest r) = true →
    (run_tools env rs st).1 = st := by
  intro env rs
  induction rs with
  | nil => intro st _; rfl
  | cons r rest ih =>
    intro st hall
    simp only [List.all_cons, Bool.and_eq_true, Bool.not_eq_eq_eq_not,
      Bool.not_true] at hall
    unfold run_tools
    have h1 : (execute_tool env st r).1 = st :=
      execute_tool_state_stable env st r hall.1
    simp only [h1]
    exact ih st (by simpa using hall.2)

/-- The record produced for the `k`-th tool request is computed in the
initial slot state when no check request precedes it. -/
theorem run_tools_record_at : ∀ (env : ToolEnv) (rs : List ToolRequest) k r st,
    rs.get? k = some r →
    ((rs.take k).all fun x => !isCheckRequest x) = true →
    (run_tools env rs st).2.get? k = some (execute_tool env st r).2 := by
  intro env rs
  induction rs with
  | nil => intro k r st hk _; simp at hk
  | cons a rest ih =>
    intro k r st hk hall
    cases k with
    | zero =>
      simp at hk
      subst hk
      rfl
    | succ k =>
      simp only [List.take_succ_cons, List.all_cons, Bool.and_eq_true,
        Bool.not_eq_eq_eq_not, Bool.not_true] at hall
      simp only [List.get?_cons_succ] at hk
      unfold run_tools
      have h1 : (execute_tool env st a).1 = st :=
        execute_tool_state_stable env st a hall.1
      simp only [h1]
      exact ih k r st hk (by simpa using hall.2)

/-- C10: the webhook handler's LLM service starts each turn with an empty
`recently_offered_slots` list; the list stays empty across any prefix of
tool requests containing no `check_calendar_availability`; booking with no
offered slots skips the slot validation entirely; hence any `book_meeting`
not preceded by a check in the same turn executes against the empty slot
list — offered slots never carry across turns on this path. -/
theorem c10_theorem :
    llmServiceInitSlots = [] ∧
    (∀ (env : ToolEnv) (reqs : List ToolRequest) k,
      ((reqs.take k).all fun r => !isCheckRequest r) = true →
      (run_tools env (reqs.take k) llmServiceInitSlots).1 = []) ∧
    (∀ dt, slotValidation dt [] = Except.ok ()) ∧
    (∀ (env : ToolEnv) (reqs : List ToolRequest) k args,
      reqs.get? k = some (ToolRequest.book args) →
      ((reqs.take k).all fun r => !isCheckRequest r) = true →
      (run_tools env reqs llmServiceInitSlots).2.get? k =
        some (execute_tool env [] (ToolRequest.book args)).2) := by
  refine ⟨rfl, ?_, ?_, ?_⟩
  · intro env reqs k h
    exact run_tools_state_stable env (reqs.take k) llmServiceInitSlots h
  · intro dt; rfl
  · intro env reqs k args hk hall
    exact run_tools_record_at env reqs k _ llmServiceInitSlots hk hall

/-- C10, witness: a turn whose only request is a booking executes it with
the empty offered-slot list. -/
theorem c10_witness :
    (run_tools fixEnv [ToolRequest.book fixBookArgs] llmServiceInitSlots).2.get? 0 =
      some (execute_tool fixEnv [] (ToolRequest.book fixBookArgs)).2 := by
  have h := c10_theorem
  exact h.2.2.2 fixEnv [ToolRequest.book fixBookArgs] 0 fixBookArgs rfl rfl

/-- A list of calls is pairwise-distinct on `lead_id` exactly when no value
of `lead_id` occurs more than once. -/
theorem pairwise_leadid_iff_count (A : List CallRow) :
    A.Pairwise (fun a b => a.lead_id ≠ b.lead_id) ↔
      ∀ lid, A.countP (fun c => c.lead_id == lid) ≤ 1 := by
  induction A with
  | nil => simp
  | cons a A ih =>
    rw [List.pairwise_cons]
    constructor
    · rintro ⟨hhead, htail⟩ lid
      rw [List.countP_cons]
      by_cases hl : (a.lead_id == lid) = true
      · have h0 : A.countP (fun c => c.lead_id == lid) = 0 := by
          rw [List.countP_eq_zero]
          intro b hb hpb
          apply hhead b hb
          have h1 : a.lead_id = lid := by simpa using hl
          have h2 : b.lead_id = lid := by simpa using hpb
          rw [h1, h2]
        simp [h0, hl]
      · simp only [hl, if_false]
        simpa using (ih.mp htail) lid
    · intro hcount
      refine ⟨?_, ih.mpr (fun lid => ?_)⟩
      · intro b hb heq
        have h1 := hcount a.lead_id
        rw [List.countP_cons_of_pos _ _ (by simp)] at h1
        have h0 : A.countP (fun c => c.lead_id == a.lead_id) = 0 := by omega
        rw [List.countP_eq_zero] at h0
        exact h0 b hb (by simp [heq])
      · have h1 := hcount lid
        rw [List.countP_cons] at h1
        omega

/-- The partial unique index admits a table exactly when every lead has at
most one active call. -/
theorem index_iff_activeUnique (calls : List CallRow) :
    IndexAdmits calls ↔ ∀ lid, leadActiveCount calls lid ≤ 1 := by
  unfold IndexAdmits leadActiveCount
  rw [pairwise_leadid_iff_count]
  constructor
  · intro h lid
    have h1 := h lid
    rwa [List.countP_filter] at h1
  · intro h lid
    rw [List.countP_filter]
    exact h lid

/-- Replacing the rows with a given id by a row that is only active when
the replaced row was active (for the same lead) cannot increase any lead's
active-call count. -/
theorem leadActiveCount_map_update_le
    (calls : List CallRow) (tid : Nat) (repl : CallRow)
    (h : ∀ c ∈ calls, c.id = tid → repl.ended_at = none →
       repl.lead_id = c.lead_id ∧ c.ended_at = none)
    (lid : Nat) :
    leadActiveCount (calls.map fun c => if c.id == tid then repl else c) lid ≤
      leadActiveCount calls lid := by
  unfold leadActiveCount
  rw [List.countP_map]
  apply List.countP_mono_left
  intro c hc hpc
  simp only [Function.comp_apply] at hpc
  by_cases hct : (c.id == tid) = true
  · rw [if_pos hct] at hpc
    simp only [Bool.and_eq_true, beq_iff_eq] at hpc
    obtain ⟨hl, he⟩ := hpc
    obtain ⟨hlead, hend⟩ := h c hc (by simpa using hct) he
    simp [hlead ▸ hl, hend]
  · rw [if_neg (by simpa using hct)] at hpc
    exact hpc

/-- `initiate_call` preserves the at-most-one-active-call invariant: the
inserted Call row is guarded by the application-level active-call check. -/
theorem initiate_call_preserves : ∀ s lid nid dial now,
    ActiveUnique s → ActiveUnique (initiate_call s lid nid dial now).1 := by
  intro s lid nid dial now hinv
  unfold initiate_call
  cases hl : s.leads.find? (fun l => l.id == lid) with
  | none => exact hinv
  | some lead =>
    cases ha : s.calls.find? (fun c => c.lead_id == lid && c.ended_at == none) with
    | some active => exact hinv
    | none =>
      have hnone := List.find?_eq_none.mp ha
      have hleadid : lead.id = lid := by simpa using List.find?_some hl
      cases dial with
      | some sid =>
        intro lid2
        unfold leadActiveCount
        rw [List.countP_append]
        by_cases h2 : lead.id = lid2
        · have h0 : s.calls.countP
              (fun c => c.lead_id == lid2 && c.ended_at == none) = 0 := by
            rw [List.countP_eq_zero]
            intro b hb hpb
            exact hnone b hb (by rw [← h2, hleadid] at hpb; exact hpb)
          simp [h0, List.countP_cons, h2]
        · have h1 : ((⟨nid, lead.id, some sid, none, none, none, none, none,
              lead.language⟩ : CallRow).lead_id == lid2) = false := by
            simpa using h2
          have h3 := hinv lid2
          unfold leadActiveCount at h3
          simp [List.countP_cons, h1]
          exact h3
      | none =>
        intro lid2
        unfold leadActiveCount
        rw [List.countP_append]
        have h3 := hinv lid2
        unfold leadActiveCount at h3
        simp [List.countP_cons]
        exact h3

/-- The status callback only ends calls, so it preserves the invariant. -/
theorem status_callback_preserves : ∀ s sid st dur now,
    ActiveUnique s → ActiveUnique (twilio_status_callback s sid st dur now) := by
  intro s sid st dur now hinv
  unfold twilio_status_callback
  cases hf : s.calls.find? (fun c => c.twilio_call_sid == some sid) with
  | none => exact hinv
  | some call =>
    by_cases h1 : (st == "completed") = true
    · simp only [h1, if_true]
      intro lid
      refine le_trans (leadActiveCount_map_update_le _ _ _ ?_ lid) (hinv lid)
      intro c hc hcid hre
      simp [status_completed_row] at hre
    · simp only [h1, Bool.false_eq_true, if_false]
      by_cases h2 : (st == "busy" || st == "no-answer" || st == "failed") = true
      · simp only [h2, if_true]
        intro lid
        refine le_trans (leadActiveCount_map_update_le _ _ _ ?_ lid) (hinv lid)
        intro c hc hcid hre
        simp at hre
      · simp only [h2, Bool.false_eq_true, if_false]
        exact hinv

/-- Finalization rewrites transcript and summary only, so it preserves the
invariant (given primary-key uniqueness of call ids). -/
theorem finalize_call_preserves : ∀ s cid txt,
    CallsPK s → ActiveUnique s → ActiveUnique (finalize_call s cid txt).1 := by
  intro s cid txt hpk hinv
  unfold finalize_call
  cases hf : s.calls.find? (fun c => c.id == cid) with
  | none => exact hinv
  | some call =>
    have hmem := List.mem_of_find?_eq_some hf
    intro lid
    refine le_trans (leadActiveCount_map_update_le _ _ _ ?_ lid) (hinv lid)
    intro c hc hcid hre
    have hceq : c = call := hpk c hc call hmem hcid
    subst hceq
    constructor
    · rfl
    · simpa [finalize_row] using hre

/-- The tool loop does not change a call's id, lead or end-timestamp. -/
theorem applyToolLoop_fields : ∀ (recs : List ToolCallRecord) lid call lead,
    (applyToolLoop lid call lead recs).1.id = call.id ∧
    (applyToolLoop lid call lead recs).1.lead_id = call.lead_id ∧
    (applyToolLoop lid call lead recs).1.ended_at = call.ended_at := by
  intro recs
  induction recs with
  | nil => intro lid call lead; exact ⟨rfl, rfl, rfl⟩
  | cons tc rest ih =>
    intro lid call lead
    unfold applyToolLoop
    by_cases hb : (tc.tool == "book_meeting" && tc.resultSuccess) = true
    · simp only [hb, if_true]
      cases hm : bookMeetingRow lid call.id tc with
      | some m => simpa using ih lid { call with outcome := some .interested } _
      | none => exact ih lid call lead
    · simp only [Bool.not_eq_true] at hb
      simp only [hb, Bool.false_eq_true, if_false]
      exact ih lid call lead

/-- The webhook intent branch keeps id and lead, and never reactivates an
ended call. -/
theorem webhook_intent_update_fields : ∀ call lead intent now,
    (webhook_intent_update call lead intent now).1.id = call.id ∧
    (webhook_intent_update call lead intent now).1.lead_id = call.lead_id ∧
    ((webhook_intent_update call lead intent now).1.ended_at = none →
      call.ended_at = none) := by
  intro call lead intent now
  cases intent <;> simp only [webhook_intent_update] <;>
    refine ⟨?_, ?_, ?_⟩ <;> (try split) <;> simp

/-- The Celery intent branch keeps id and lead, and never reactivates an
ended call. -/
theorem tasks_intent_update_fields : ∀ call lead intent now,
    (tasks_intent_update call lead intent now).1.id = call.id ∧
    (tasks_intent_update call lead intent now).1.lead_id = call.lead_id ∧
    ((tasks_intent_update call lead intent now).1.ended_at = none →
      call.ended_at = none) := by
  intro call lead intent now
  cases intent <;> simp only [tasks_intent_update] <;>
    refine ⟨?_, ?_, ?_⟩ <;> (try split) <;> simp

/-- Writing a turn's output back preserves the invariant when the written
call row kept its lead and did not come back to life. -/
theorem applyTurnOutput_preserves (s : DBState) (o : TurnOutput) (call : CallRow)
    (hmem : call ∈ s.calls) (hpk : CallsPK s) (hid : o.call.id = call.id)
    (hlead : o.call.lead_id = call.lead_id)
    (hend : o.call.ended_at = none → call.ended_at = none)
    (hinv : ActiveUnique s) : ActiveUnique (applyTurnOutput s o) := by
  intro lid
  show leadActiveCount
    (s.calls.map fun c => if c.id == o.call.id then o.call else c) lid ≤ 1
  refine le_trans (leadActiveCount_map_update_le _ _ _ ?_ lid) (hinv lid)
  intro c hc hcid hre
  have hceq : c = call := hpk c hc call hmem (hcid.trans hid)
  subst hceq
  exact ⟨hlead, hend hre⟩

/-- The webhook turn body keeps the call's id and lead and never
reactivates it. -/
theorem speech_turn_call_fields : ∀ call lead env raw sp now,
    (twilio_process_speech_turn call lead env raw sp now).call.id = call.id ∧
    (twilio_process_speech_turn call lead env raw sp now).call.lead_id =
      call.lead_id ∧
    ((twilio_process_speech_turn call lead env raw sp now).call.ended_at = none →
      call.ended_at = none) := by
  intro call lead env raw sp now
  obtain ⟨g1, g2, g3⟩ := applyToolLoop_fields
    ((get_response_with_tools env llmServiceInitSlots sp raw).2.2.2.getD [])
    call.lead_id call lead
  obtain ⟨h1, h2, h3⟩ := webhook_intent_update_fields
    (applyToolLoop call.lead_id call lead
      ((get_response_with_tools env llmServiceInitSlots sp raw).2.2.2.getD [])).1
    (applyToolLoop call.lead_id call lead
      ((get_response_with_tools env llmServiceInitSlots sp raw).2.2.2.getD [])).2.1
    ((get_response_with_tools env llmServiceInitSlots sp raw).2.1) now
  exact ⟨h1.trans g1, h2.trans g2, fun h => g3.symm.trans (h3 h)⟩

/-- The Celery turn body keeps the call's id and lead and never
reactivates it. -/
theorem tasks_turn_call_fields : ∀ call lead env stSlots raw um now,
    (process_conversation_turn_body call lead env stSlots raw um now).call.id =
      call.id ∧
    (process_conversation_turn_body call lead env stSlots raw um now).call.lead_id =
      call.lead_id ∧
    ((process_conversation_turn_body call lead env stSlots raw um now).call.ended_at =
        none → call.ended_at = none) := by
  intro call lead env stSlots raw um now
  obtain ⟨g1, g2, g3⟩ := applyToolLoop_fields
    ((get_response_with_tools env stSlots um raw).2.2.2.getD [])
    call.lead_id call lead
  obtain ⟨h1, h2, h3⟩ := tasks_intent_update_fields
    (applyToolLoop call.lead_id call lead
      ((get_response_with_tools env stSlots um raw).2.2.2.getD [])).1
    (applyToolLoop call.lead_id call lead
      ((get_response_with_tools env stSlots um raw).2.2.2.getD [])).2.1
    ((get_response_with_tools env stSlots um raw).2.1) now
  exact ⟨h1.trans g1, h2.trans g2, fun h => g3.symm.trans (h3 h)⟩

/-- The webhook turn handler preserves the invariant. -/
theorem speech_preserves : ∀ s sid sp env raw now,
    CallsPK s → ActiveUnique s →
    ActiveUnique (twilio_process_speech s sid sp env raw now).1 := by
  intro s sid sp env raw now hpk hinv
  unfold twilio_process_speech
  cases hf : s.calls.find? (fun c => c.twilio_call_sid == some sid) with
  | none => exact hinv
  | some call =>
    cases sp with
    | none => exact hinv
    | some spv =>
      by_cases hempty : (pyStrip spv == "") = true
      · simp only [hempty, if_true]; exact hinv
      · simp only [hempty, Bool.false_eq_true, if_false]
        obtain ⟨h1, h2, h3⟩ := speech_turn_call_fields call
          (s.leads.find? (fun l => l.id == call.lead_id)) env raw spv now
        exact applyTurnOutput_preserves s _ call
          (List.mem_of_find?_eq_some hf) hpk h1 h2 h3 hinv

/-- The Celery turn task preserves the invariant. -/
theorem tasks_turn_preserves : ∀ s cid env stSlots raw um now,
    CallsPK s → ActiveUnique s →
    ActiveUnique (process_conversation_turn s cid env stSlots raw um now).1 := by
  intro s cid env stSlots raw um now hpk hinv
  unfold process_conversation_turn
  cases hf : s.calls.find? (fun c => c.id == cid) with
  | none => exact hinv
  | some call =>
    obtain ⟨h1, h2, h3⟩ := tasks_turn_call_fields call
      (s.leads.find? (fun l => l.id == call.lead_id)) env stSlots raw um now
    exact applyTurnOutput_preserves s _ call
      (List.mem_of_find?_eq_some hf) hpk h1 h2 h3 hinv

/-- C1: the storage-layer partial unique index on `calls(lead_id) WHERE
ended_at IS NULL` is equivalent to "each lead has at most one active
call", and that invariant is preserved by every operation that creates or
ends calls: initiation (whose application-level check guards the only
insert), the status callback, both turn-processing paths, and
finalization (where primary-key uniqueness of call ids is assumed for the
row updates). -/
theorem c1_theorem :
    (∀ calls, IndexAdmits calls ↔ ∀ lid, leadActiveCount calls lid ≤ 1) ∧
    (∀ s lid nid dial now, ActiveUnique s →
      ActiveUnique (initiate_call s lid nid dial now).1) ∧
    (∀ s sid st dur now, ActiveUnique s →
      ActiveUnique (twilio_status_callback s sid st dur now)) ∧
    (∀ s sid sp env raw now, CallsPK s → ActiveUnique s →
      ActiveUnique (twilio_process_speech s sid sp env raw now).1) ∧
    (∀ s cid env stSlots raw um now, CallsPK s → ActiveUnique s →
      ActiveUnique (process_conversation_turn s cid env stSlots raw um now).1) ∧
    (∀ s cid txt, CallsPK s → ActiveUnique s →
      ActiveUnique (finalize_call s cid txt).1) :=
  ⟨index_iff_activeUnique, initiate_call_preserves, status_callback_preserves,
   speech_preserves, tasks_turn_preserves, finalize_call_preserves⟩

/-- C1, witness: the invariant holds of the empty store and is preserved by
a concrete initiation and by a concrete completed-status callback. -/
theorem c1_witness :
    ActiveUnique fixStateEmpty ∧
    ActiveUnique (initiate_call fixStateEmpty 42 1 (some "CA1") 0).1 ∧
    CallsPK fixStateActive ∧ ActiveUnique fixStateActive ∧
    ActiveUnique (twilio_status_callback fixStateActive "CA7" "completed" none 50) := by
  have hinv0 : ActiveUnique fixStateEmpty := by
    intro lid; simp [leadActiveCount, fixStateEmpty]
  have hpk : CallsPK fixStateActive := by
    intro a ha b hb hab
    simp [fixStateActive] at ha hb
    rw [ha, hb]
  have hinv1 : ActiveUnique fixStateActive := by
    intro lid
    exact le_trans (List.countP_le_length _) (by simp [fixStateActive])
  exact ⟨hinv0, c1_theorem.2.1 fixStateEmpty 42 1 (some "CA1") 0 hinv0,
    hpk, hinv1, c1_theorem.2.2.1 fixStateActive "CA7" "completed" none 50 hinv1⟩

end Callcenter
